import Mathlib

/-! Shallow embedding of the build/test output engine of kwokhunglee/wide
    (src/output/build.go, src/output/test.go). Go strings are byte slices;
    every input considered here is ASCII, so they are modelled as `List Char`
    with one character per byte. Runtime panics of the Go code (index out of
    range, slice bounds out of range) are modelled by `Option`/marker values,
    never papered over. -/

namespace Wide

/-- Go strings, modelled as lists of (ASCII) characters. -/
abbrev GoStr := List Char

/-- The character list of a Lean string literal (helper for concrete inputs). -/
def gs (s : String) : GoStr := s.toList

/-- Position of the first `':'` in a string, `none` when absent.
    Models Go `strings.Index(s, ":")` (which returns -1 for absence) together
    with `strings.Contains(s, ":")`. -/
def firstColonIdx : GoStr → Option Nat
  | [] => none
  | c :: rest => if c = ':' then some 0 else (firstColonIdx rest).map (· + 1)

/-- Go `strings.Contains(s, pat)`: `pat` occurs as a contiguous substring. -/
def hasSubstr (pat : GoStr) : GoStr → Bool
  | [] => pat.isEmpty
  | c :: rest => pat.isPrefixOf (c :: rest) || hasSubstr pat rest

/-- Numeric value of a digit string (no sign), most significant digit first. -/
def digitsToNat (ds : GoStr) : Nat :=
  ds.foldl (fun n c => n * 10 + (c.toNat - 48)) 0

/-- A non-empty all-digit string parsed to its value, `none` otherwise. -/
def natDigits? (ds : GoStr) : Option Nat :=
  if !ds.isEmpty && ds.all Char.isDigit then some (digitsToNat ds) else none

/-- Largest value of Go's 64-bit `int`. -/
def int64Max : Nat := 9223372036854775807

/-- Go `strconv.Atoi`: optional sign, at least one digit, all digits, and the
    value must fit a 64-bit `int`; any violation yields an error (`none`). -/
def atoi? (s : GoStr) : Option Int :=
  match s with
  | [] => none
  | '+' :: ds =>
    match natDigits? ds with
    | some n => if n ≤ int64Max then some (Int.ofNat n) else none
    | none => none
  | '-' :: ds =>
    match natDigits? ds with
    | some n => if n ≤ int64Max + 1 then some (-(Int.ofNat n)) else none
    | none => none
  | ds =>
    match natDigits? ds with
    | some n => if n ≤ int64Max then some (Int.ofNat n) else none
    | none => none

/-- The structured diagnostic record built by BuildHandler (build.go 288-293).
    The `Lint` struct itself is declared elsewhere in the `output` package;
    its four fields and their types are fixed by the composite literal at
    build.go 288. `LineNo` is an `int` and can be negative. -/
structure Lint where
  File : GoStr
  LineNo : Int
  Severity : GoStr
  Msg : GoStr
deriving DecidableEq

/-- Modelled from the spec: the constant `lintSeverityError` is declared
    outside src/; the spec fixes severity to "error" (no warning tier). -/
def lintSeverityError : GoStr := gs "error"

/-- Go `filepath.ToSlash(filepath.Join(dir, file))` for a non-empty cleaned
    slash-separated `dir` with no trailing separator and a relative `file`
    with no dot segments — the shape of every path in this development, on
    which Join reduces to inserting one separator. -/
def joinToSlash (dir file : GoStr) : GoStr := dir ++ '/' :: file

/-- What one iteration of the lint loop in BuildHandler (build.go 257-296)
    does with one captured stderr line. `oob` marks a Go slice access with an
    out-of-bounds index (a runtime panic). -/
inductive LineAction
  | skip
  | emit (l : Lint)
  | appendLast (txt : GoStr)
  | oob
deriving DecidableEq

/-- The body of the lint loop (build.go 258-295) acting on one line.
    Transcribed clause by clause: the empty/no-colon guard (258-260), the
    tab-continuation branch (262-271), the split at the first colon (273-275),
    the `Atoi` attempt with `continue` on error (276-286), and the emitted
    `Lint` with `LineNo: lineNo - 1` (288-293). `left[index+2:]` panics in Go
    when `index+2` exceeds `len(left)`, hence the `oob` case. -/
def lintLineAction (curDir line : GoStr) : LineAction :=
  if line.length < 1 then .skip
  else
    match firstColonIdx line with
    | none => .skip
    | some i =>
      if line.head? = some '\t' then .appendLast line
      else
        let file := line.take i
        let left := line.drop (i + 1)
        match firstColonIdx left with
        | none =>
          .emit { File := joinToSlash curDir file, LineNo := 0 - 1,
                  Severity := lintSeverityError, Msg := left }
        | some j =>
          match atoi? (left.take j) with
          | none => .skip
          | some n =>
            if j + 2 > left.length then .oob
            else
              .emit { File := joinToSlash curDir file, LineNo := n - 1,
                      Severity := lintSeverityError, Msg := left.drop (j + 2) }

/-- Rewrite the last element of a list in place (models the assignment
    `lints[last-1].Msg = msg` at build.go 268). -/
def modifyLast (f : Lint → Lint) : List Lint → List Lint
  | [] => []
  | [x] => [f x]
  | x :: y :: rest => x :: modifyLast f (y :: rest)

/-- One step of the lint accumulation. `none` records that a panic has
    happened: either `lints[last-1]` with `last = 0` (build.go 264-265, the
    continuation with no prior Lint) or the `left[index+2:]` slice bound. -/
def lintsStep (curDir : GoStr) (st : Option (List Lint)) (line : GoStr) :
    Option (List Lint) :=
  match st with
  | none => none
  | some lints =>
    match lintLineAction curDir line with
    | .skip => some lints
    | .appendLast txt =>
      match lints with
      | [] => none
      | _ :: _ => some (modifyLast (fun l => { l with Msg := l.Msg ++ txt }) lints)
    | .emit l => some (lints ++ [l])
    | .oob => none

/-- The lint loop over the remaining lines (build.go 257-296). -/
def parseLints (curDir : GoStr) (lines : List GoStr) : Option (List Lint) :=
  lines.foldl (lintsStep curDir) (some [])

/-- The whole failure branch of the resolution (build.go 250-296): the
    package-marker check `lines[0][0] == '#'` followed by the lint loop.
    `lines[0]` on an empty slice and `lines[0][0]` on an empty first line are
    index-out-of-range panics, modelled as `none`. -/
def classifyFailureLints (curDir : GoStr) (lines : List GoStr) :
    Option (List Lint) :=
  match lines with
  | [] => none
  | first :: rest =>
    match first with
    | [] => none
    | c :: _ => parseLints curDir (if c = '#' then rest else first :: rest)

/-- Accumulating splitter behind `readLines`: `acc` is the partial line read
    so far; a `'\n'` finishes a line (delimiter kept, as `ReadString` keeps
    it); end of input with a pending fragment discards it, because the loop
    breaks on `io.EOF` before appending (build.go 218-221). -/
def drainAux : GoStr → GoStr → List GoStr
  | [], _ => []
  | c :: rest, acc =>
    if c = '\n' then (acc ++ [c]) :: drainAux rest []
    else drainAux rest (acc ++ [c])

/-- The sequence of lines produced by the `bufio.Reader.ReadString('\n')`
    loops of build.go (stdout loop 174-207, stderr loop 212-242) on a fully
    available stream: each produced line includes its trailing `'\n'`; a final
    unterminated fragment is dropped with the `io.EOF` break. -/
def readLines (s : GoStr) : List GoStr := drainAux s []

/-- The stderr drain loop's capture (build.go 212-229) under a channel
    liveness oracle: iteration `i` first re-reads `session.OutputWS[sid]`
    (`live i`); a nil channel breaks the loop before reading, a present
    channel reads and buffers the next line. -/
def drainStderrAux (live : Nat → Bool) : Nat → List GoStr → List GoStr
  | _, [] => []
  | i, l :: rest => if live i then l :: drainStderrAux live (i + 1) rest else []

/-- Captured stderr lines for a given liveness schedule and stream. -/
def drainStderr (live : Nat → Bool) (stream : List GoStr) : List GoStr :=
  drainStderrAux live 0 stream

/-- Observable events of the build sequence after `cmd.Start()`:
    a stderr line forwarded to the channel, the `cmd.Wait()` call (build.go
    244), the final resolution message (success banner or failure banner with
    lints, build.go 244-310), or a runtime panic. -/
inductive BuildEvent
  | sentLine (l : GoStr)
  | waitCalled
  | sentFinal (ok : Bool) (lints : List Lint)
  | panicked
deriving DecidableEq

/-- The build sequence after `cmd.Start()` (build.go 210-311): drain and
    forward stderr while the channel is live, then `cmd.Wait()`, then resolve.
    On success the final message carries no lints; on failure the captured
    lines go through the package-marker check and the lint loop — `none`
    there is the `lines[0][0]` (or slice-bound) panic. The final send is
    guarded by one more channel lookup (build.go 301-304), `liveFinal`. -/
def buildAfterStart (curDir : GoStr) (live : Nat → Bool) (liveFinal : Bool)
    (stream : List GoStr) (exitOk : Bool) : List BuildEvent :=
  let captured := drainStderr live stream
  (captured.map BuildEvent.sentLine) ++ [BuildEvent.waitCalled] ++
  (if exitOk then
    (if liveFinal then [BuildEvent.sentFinal true []] else [])
  else
    match classifyFailureLints curDir captured with
    | none => [BuildEvent.panicked]
    | some lints => if liveFinal then [BuildEvent.sentFinal false lints] else [])

/-- The module-preparation abort decision (build.go 111-118): after
    `goModCmd.CombinedOutput()`, the handler sets `result.Code = -1` and
    returns exactly when the command failed AND its combined output contains
    "go.mod already exists". -/
def goModPrepAborts (cmdFailed : Bool) (output : GoStr) : Bool :=
  cmdFailed && hasSubstr (gs "go.mod already exists") output

/-- Observable events of GoTestHandler (test.go 36-152): the start
    announcement (91-106), `cmd.Start()` succeeding (110), `cmd.Wait()` in the
    background task (129), and the single completion send (141-150). -/
inductive TestEvent
  | sentStart
  | spawned
  | waitedTest
  | sentCompletion (msg : GoStr)
deriving DecidableEq

/-- An HTML span of a given presentation class, newline-terminated, as built
    by the handlers: `"<span class='" + cls + "'>" + text + "</span>\n"`. -/
def spanWrap (cls text : GoStr) : GoStr :=
  gs "<span class=\x27" ++ cls ++ gs "\x27>" ++ text ++ gs "</span>\n"

/-- The fail banner of the test completion message (test.go 134), where
    `errText` is the localized "test-error" text. -/
def testErrorBanner (errText : GoStr) : GoStr := spanWrap (gs "test-error") errText

/-- The pass banner of the test completion message (test.go 138), where
    `succText` is the localized "test-succ" text. -/
def testSuccBanner (succText : GoStr) : GoStr := spanWrap (gs "test-succ") succText

/-- Control flow of GoTestHandler from the start announcement on (test.go
    91-152). `live`: channel present at the announcement; `sendOk`: the
    announcement `WriteJSON` succeeded (on failure the handler returns at
    test.go 102, before `cmd.Start()`); `spawnOk`: `cmd.Start()` succeeded;
    `stream`: the bytes `ioutil.ReadAll` obtains from the merged
    stdout+stderr reader; `exitSuccess`: `cmd.ProcessState.Success()`;
    `liveEnd`: channel present at the completion send (test.go 141). -/
def goTestTrace (live sendOk spawnOk exitSuccess liveEnd : Bool)
    (stream errText succText : GoStr) : List TestEvent :=
  if live && !sendOk then []
  else
    (if live then [TestEvent.sentStart] else []) ++
    (if !spawnOk then []
    else
      [TestEvent.spawned, TestEvent.waitedTest] ++
      (if liveEnd then
        [TestEvent.sentCompletion
          ((if exitSuccess then testSuccBanner succText else testErrorBanner errText)
            ++ stream)]
      else []))

/-- The completion messages occurring in a test trace, in order. -/
def completionMsgs (t : List TestEvent) : List GoStr :=
  t.filterMap (fun e =>
    match e with
    | TestEvent.sentCompletion m => some m
    | _ => none)

/-- Every line produced by the draining splitter is some prefix followed by
    the newline delimiter (helper for the streaming claims). -/
theorem drainAux_mem_shape (s : GoStr) :
    ∀ acc l, l ∈ drainAux s acc → ∃ p, l = p ++ ['\n'] := by
  induction s with
  | nil => intro acc l h; simp [drainAux] at h
  | cons c rest ih =>
    intro acc l h
    by_cases hc : c = '\n'
    · rw [drainAux, if_pos hc] at h
      rcases List.mem_cons.mp h with h1 | h2
      · exact ⟨acc, by rw [h1, hc]⟩
      · exact ih [] l h2
    · rw [drainAux, if_neg hc] at h
      exact ih (acc ++ [c]) l h

/-- C1 (code bug): the module-preparation step aborts the build exactly when
    the command failed with output containing "go.mod already exists", and
    tolerates every other preparation failure — the inverse of the documented
    behaviour ("already exists" tolerated, anything else aborts). -/
theorem c1_goModPrep_eval :
    goModPrepAborts true (gs "go.mod already exists\n") = true ∧
    goModPrepAborts true (gs "go: cannot determine module path for source dir\n") = false ∧
    goModPrepAborts false (gs "") = false := by decide

/-- C2 counterexample: the raw stderr line "main.go:boom" (exactly one colon,
    so no line token) is emitted with line -1, not 0 as claimed: the zero
    default is still decremented by the unconditional `LineNo: lineNo - 1`. -/
theorem c2_counterexample :
    parseLints (gs "/proj") [gs "main.go:boom\n"] =
      some [{ File := gs "/proj/main.go", LineNo := -1,
              Severity := gs "error", Msg := gs "boom\n" }] ∧
    (-1 : Int) ≠ 0 := by decide

/-- C2 amended: every Diagnostic the line parser emits has line equal to the
    parsed numeric token minus one when a second colon and a numeric token are
    present, and line equal to -1 (not 0) when the line has no second colon;
    a present but non-numeric token emits nothing at all. -/
theorem c2_amended (curDir line : GoStr) (l : Lint)
    (h : lintLineAction curDir line = LineAction.emit l) :
    (∃ i j n, firstColonIdx line = some i ∧
       firstColonIdx (line.drop (i + 1)) = some j ∧
       atoi? ((line.drop (i + 1)).take j) = some n ∧ l.LineNo = n - 1) ∨
    (∃ i, firstColonIdx line = some i ∧
       firstColonIdx (line.drop (i + 1)) = none ∧ l.LineNo = -1) := by
  unfold lintLineAction at h
  split at h
  · simp at h
  · split at h
    · simp at h
    · rename_i i hi
      split at h
      · simp at h
      · dsimp only at h
        split at h
        · rename_i hleft
          right
          refine ⟨i, hi, hleft, ?_⟩
          simp only [LineAction.emit.injEq] at h
          rw [← h]
          show (0 : Int) - 1 = -1
          decide
        · rename_i j hj
          split at h
          · simp at h
          · rename_i n hn
            split at h
            · simp at h
            · left
              refine ⟨i, j, n, hi, hj, hn, ?_⟩
              simp only [LineAction.emit.injEq] at h
              rw [← h]

/-- C2 amended, witnessed on the concrete line "a.go:3: x": the emitted
    Diagnostic has line 2 = 3 - 1. -/
theorem c2_amended_witness :
    (∃ i j n, firstColonIdx (gs "a.go:3: x\n") = some i ∧
       firstColonIdx ((gs "a.go:3: x\n").drop (i + 1)) = some j ∧
       atoi? (((gs "a.go:3: x\n").drop (i + 1)).take j) = some n ∧
       ({ File := gs "/p/a.go", LineNo := 2,
          Severity := gs "error", Msg := gs "x\n" } : Lint).LineNo = n - 1) ∨
    (∃ i, firstColonIdx (gs "a.go:3: x\n") = some i ∧
       firstColonIdx ((gs "a.go:3: x\n").drop (i + 1)) = none ∧
       ({ File := gs "/p/a.go", LineNo := 2,
          Severity := gs "error", Msg := gs "x\n" } : Lint).LineNo = -1) :=
  c2_amended (gs "/p") (gs "a.go:3: x\n")
    { File := gs "/p/a.go", LineNo := 2, Severity := gs "error", Msg := gs "x\n" }
    (by decide)

/-- C3 counterexample: the line "main.go:abc:boom" (non-numeric line token)
    emits no Diagnostic at all — the `Atoi` error hits `continue` — instead
    of the claimed Diagnostic with line 0 and the right-hand side kept. -/
theorem c3_counterexample :
    parseLints (gs "/proj") [gs "main.go:abc:boom\n"] = some [] := by decide

/-- C3 amended: a non-tab line of shape path:nonNumeric:msg is skipped by the
    lint loop (no Diagnostic is emitted and no crash occurs). -/
theorem c3_amended (curDir line : GoStr) (i j : Nat)
    (hi : firstColonIdx line = some i)
    (htab : line.head? ≠ some '\t')
    (hj : firstColonIdx (line.drop (i + 1)) = some j)
    (ha : atoi? ((line.drop (i + 1)).take j) = none) :
    lintLineAction curDir line = LineAction.skip := by
  have hlen : ¬ line.length < 1 := by
    cases line with
    | nil => simp [firstColonIdx] at hi
    | cons c rest => simp
  simp only [lintLineAction, if_neg hlen, hi, if_neg htab, hj, ha]

/-- C3 amended, witnessed on the concrete line "main.go:abc:boom". -/
theorem c3_amended_witness :
    lintLineAction (gs "/proj") (gs "main.go:abc:boom\n") = LineAction.skip :=
  c3_amended (gs "/proj") (gs "main.go:abc:boom\n") 7 3
    (by decide) (by decide) (by decide) (by decide)

/-- C4 counterexample: on the stderr line "main.go:10:2: undefined: foo" the
    parser drops only `lineToken` plus two bytes from the remainder, so with a
    column token present the message is ": undefined: foo\n" (colon, space,
    text, trailing newline kept), not "undefined: foo" as claimed. -/
theorem c4_counterexample :
    parseLints (gs "/proj") [gs "main.go:10:2: undefined: foo\n"] =
      some [{ File := gs "/proj/main.go", LineNo := 9,
              Severity := gs "error", Msg := gs ": undefined: foo\n" }] ∧
    gs ": undefined: foo\n" ≠ gs "undefined: foo" := by decide

/-- C4 amended: the line "main.go:10:2: undefined: foo" captured with its
    newline in workdir "/proj" yields exactly one Diagnostic with file
    "/proj/main.go", line 9, severity "error" and message ": undefined: foo\n". -/
theorem c4_amended_eval :
    parseLints (gs "/proj") [gs "main.go:10:2: undefined: foo\n"] =
      some [{ File := gs "/proj/main.go", LineNo := 9,
              Severity := gs "error", Msg := gs ": undefined: foo\n" }] := by decide

/-- C5 counterexample: the tab continuation line "\thave int" directly follows
    an emitted Diagnostic but contains no colon, so the colon guard drops it:
    the previous Diagnostic's message stays "x\n" and nothing is appended. -/
theorem c5_counterexample :
    parseLints (gs "/p") [gs "a.go:1: x\n", gs "\thave int\n"] =
      some [{ File := gs "/p/a.go", LineNo := 0,
              Severity := gs "error", Msg := gs "x\n" }] ∧
    gs "x\n" ≠ gs "x\n" ++ gs "\thave int\n" := by decide

/-- C5 amended: a tab-starting raw line that also contains a colon, processed
    while at least one Diagnostic has been emitted, is appended in full
    (tab and trailing newline included) to the most recent Diagnostic's
    message; tab lines without a colon are dropped by the colon guard. -/
theorem c5_amended (curDir line : GoStr) (lints : List Lint)
    (hne : lints ≠ [])
    (htab : line.head? = some '\t')
    (hcolon : firstColonIdx line ≠ none) :
    lintsStep curDir (some lints) line =
      some (modifyLast (fun l => { l with Msg := l.Msg ++ line }) lints) := by
  obtain ⟨i, hi⟩ := Option.ne_none_iff_exists'.mp hcolon
  have hlen : ¬ line.length < 1 := by
    cases line with
    | nil => simp at htab
    | cons c rest => simp
  have hact : lintLineAction curDir line = LineAction.appendLast line := by
    simp only [lintLineAction, if_neg hlen, hi, htab, if_pos]
  cases lints with
  | nil => exact absurd rfl hne
  | cons a as => simp only [lintsStep, hact]

/-- C5 amended, witnessed: appending "\thave: int\n" to the one emitted
    Diagnostic. -/
theorem c5_amended_witness :
    lintsStep (gs "/p")
      (some [{ File := gs "/p/a.go", LineNo := 0,
               Severity := gs "error", Msg := gs "x\n" }]) (gs "\thave: int\n") =
      some (modifyLast (fun l => { l with Msg := l.Msg ++ gs "\thave: int\n" })
        [{ File := gs "/p/a.go", LineNo := 0,
           Severity := gs "error", Msg := gs "x\n" }]) :=
  c5_amended (gs "/p") (gs "\thave: int\n")
    [{ File := gs "/p/a.go", LineNo := 0, Severity := gs "error", Msg := gs "x\n" }]
    (by decide) (by decide) (by decide)

/-- C6 counterexample: the line-reading loop keeps the delimiter
    (`ReadString('\n')`), so the stream "ok\n" is produced as the single line
    "ok\n", not "ok" with the trailing newline excluded. -/
theorem c6_counterexample :
    readLines (gs "ok\n") = [gs "ok\n"] ∧ gs "ok\n" ≠ gs "ok" := by decide

/-- C6 amended: the streaming step produces a finite sequence of text lines in
    which each line is non-empty and INCLUDES its trailing newline character,
    for both the stdout and the stderr loop (both use the same
    `ReadString('\n')` pattern); a final fragment not terminated by a newline
    is dropped at end of stream. -/
theorem c6_amended (s l : GoStr) (h : l ∈ readLines s) :
    l ≠ [] ∧ l.getLast? = some '\n' := by
  obtain ⟨p, rfl⟩ := drainAux_mem_shape s [] l h
  constructor
  · simp
  · simp

/-- C6 amended, witnessed on the stream "ok\n". -/
theorem c6_amended_witness :
    gs "ok\n" ≠ [] ∧ (gs "ok\n").getLast? = some '\n' :=
  c6_amended (gs "ok\n") (gs "ok\n") (by decide)

/-- C7 (code bug): with the delivery channel absent from the first send point
    and a failing compile, the drain forwards nothing (messages dropped) and
    `cmd.Wait()` is still called, but the sequence then panics — the failure
    branch evaluates `lines[0][0]` on the empty captured list — instead of
    completing normally as documented. -/
theorem c7_trace_eval :
    buildAfterStart (gs "/proj") (fun _ => false) false
        [gs "main.go:1: boom\n"] false =
      [BuildEvent.waitCalled, BuildEvent.panicked] := rfl

/-- C8: with the channel live at completion time, the test path sends exactly
    one completion message: on non-zero exit the fail banner followed by the
    entire captured combined output, on zero exit the pass banner followed by
    the same captured output — regardless of whether the channel was present
    for the start announcement. -/
theorem c8_test_completion (live : Bool) (stream errText succText : GoStr) :
    completionMsgs (goTestTrace live true true false true stream errText succText) =
      [testErrorBanner errText ++ stream] ∧
    completionMsgs (goTestTrace live true true true true stream errText succText) =
      [testSuccBanner succText ++ stream] := by
  cases live <;> exact ⟨rfl, rfl⟩

/-- C9 (code bug): when the build fails, the package-marker check
    `lines[0][0] == '#'` is evaluated unconditionally; on an empty captured
    list (or an empty first line) it is out of bounds (`none` models the Go
    index-out-of-range panic), while a well-formed capture is classified
    normally. -/
theorem c9_classify_empty :
    classifyFailureLints (gs "/proj") [] = none ∧
    classifyFailureLints (gs "/proj") [[]] = none ∧
    classifyFailureLints (gs "/proj") [gs "# pkg\n", gs "a.go:1: x\n"] =
      some [{ File := gs "/proj/a.go", LineNo := 0,
              Severity := gs "error", Msg := gs "x\n" }] := by decide

/-- C10: in the test path, a live channel whose start-announcement send fails
    makes the handler return before `cmd.Start()`: the trace is empty, the
    process is never spawned and no completion message is ever sent. -/
theorem c10_start_send_fail (spawnOk exitSuccess liveEnd : Bool)
    (stream errText succText : GoStr) :
    goTestTrace true false spawnOk exitSuccess liveEnd stream errText succText = [] ∧
    TestEvent.spawned ∉
      goTestTrace true false spawnOk exitSuccess liveEnd stream errText succText ∧
    completionMsgs
      (goTestTrace true false spawnOk exitSuccess liveEnd stream errText succText) = [] :=
  ⟨rfl, List.not_mem_nil _, rfl⟩

end Wide
